import Mathlib

/-!
Shallow embedding of `src/app1.py`, a Dash dashboard over the gapminder
table.  Pure figure-building functions become Lean functions on an
in-memory list of records; the reactive callback layer becomes an explicit
step function on a dashboard state.  Numeric cells are modelled as `Rat`.

Only the columns the source references (`country`, `continent`, `year`,
`lifeExp`, `pop`, `gdpPercap`, `iso_alpha`) are modelled; the dataset
itself is an external collaborator (`plotly.data.gapminder`), so the
embedding is parametric in the dataset.
-/

set_option linter.unusedVariables false

/-- One row of the gapminder table (`gapminder_df`). -/
structure Record where
  country : String
  continent : String
  year : Int
  lifeExp : Rat
  pop : Rat
  gdpPercap : Rat
  iso_alpha : String
deriving DecidableEq, Repr

/-- `gapminder_df` as an ordered sequence of rows. -/
abbrev Dataset := List Record

/-- The numeric columns the charts rank or color by: the `y_col` /
`variable` strings `"pop"`, `"gdpPercap"`, `"lifeExp"` of the source. -/
inductive Metric where
  | pop
  | gdpPercap
  | lifeExp
deriving DecidableEq, Repr

/-- `r[y_col]`: the numeric cell a metric selects in a row. -/
def metricValue : Metric → Record → Rat
  | .pop, r => r.pop
  | .gdpPercap, r => r.gdpPercap
  | .lifeExp, r => r.lifeExp

/-- The column-name string of a metric, as it appears in the source. -/
def metricName : Metric → String
  | .pop => "pop"
  | .gdpPercap => "gdpPercap"
  | .lifeExp => "lifeExp"

/-- The descending comparison `sort_values(by=y_col, ascending=False)`
sorts by: `a` comes no later than `b` when its metric value is at least
`b`'s. -/
def metricGE (m : Metric) (a b : Record) : Prop :=
  metricValue m b ≤ metricValue m a

instance (m : Metric) : DecidableRel (metricGE m) :=
  fun a b => inferInstanceAs (Decidable (metricValue m b ≤ metricValue m a))

instance (m : Metric) : IsTotal Record (metricGE m) :=
  ⟨fun a b => le_total (metricValue m b) (metricValue m a)⟩

instance (m : Metric) : IsTrans Record (metricGE m) :=
  ⟨fun _ _ _ h1 h2 => le_trans h2 h1⟩

/-- The figure `create_bar_chart` returns: the rows px.bar receives
(after sort and head), the encodings taken from them, and the layout
fields the source sets.  `title` is an `Option` because `px.bar` is
invoked without a title and `update_layout` sets none. -/
structure BarFig where
  data : List Record
  x : List String
  y : List Rat
  colorKey : List String
  textAuto : Bool
  template : String
  title : Option String
  height : Nat
deriving DecidableEq, Repr

/-- `create_bar_chart(df, y_col, title)` of the source:
`df.sort_values(by=y_col, ascending=False).head(15)` then
`px.bar(df, x="country", y=y_col, color="country", text_auto=True, ...)`
and `update_layout(height=500, ...)`.  The sort is modelled with
`List.insertionSort` on the descending key; of the claims below only
stability would depend on that algorithm choice, and the stability claim
is not settled against this model.  The `title` parameter is accepted and
— exactly as in the source — never used. -/
def create_bar_chart (df : List Record) (y_col : Metric) (title : String) : BarFig :=
  let df2 := (List.insertionSort (metricGE y_col) df).take 15
  { data := df2
    x := df2.map Record.country
    y := df2.map (metricValue y_col)
    colorKey := df2.map Record.country
    textAuto := true
    template := "plotly_white"
    title := none
    height := 500 }

/-- The filter shared by the three ranking-chart builders:
`gapminder_df[(gapminder_df["continent"]==continent) & (gapminder_df["year"]==year)]`. -/
def filterContinentYear (ds : Dataset) (continent : String) (year : Int) : List Record :=
  ds.filter (fun r => r.continent == continent && r.year == year)

/-- `create_population_chart(continent="Asia", year=1952)`. -/
def create_population_chart (ds : Dataset) (continent : String := "Asia")
    (year : Int := 1952) : BarFig :=
  create_bar_chart (filterContinentYear ds continent year) .pop
    ("Top 15 Populations in " ++ continent ++ " (" ++ toString year ++ ")")

/-- `create_gdp_chart(continent="Asia", year=1952)`. -/
def create_gdp_chart (ds : Dataset) (continent : String := "Asia")
    (year : Int := 1952) : BarFig :=
  create_bar_chart (filterContinentYear ds continent year) .gdpPercap
    ("Top 15 GDP per Capita in " ++ continent ++ " (" ++ toString year ++ ")")

/-- `create_life_exp_chart(continent="Asia", year=1952)`. -/
def create_life_exp_chart (ds : Dataset) (continent : String := "Asia")
    (year : Int := 1952) : BarFig :=
  create_bar_chart (filterContinentYear ds continent year) .lifeExp
    ("Top 15 Life Expectancy in " ++ continent ++ " (" ++ toString year ++ ")")

/-- The figure `create_choropleth_map` returns: the year slice px.choropleth
receives, the per-row encodings (locations from `iso_alpha`, color from the
chosen metric, hover country names) and the layout fields the source sets. -/
structure MapFig where
  data : List Record
  locations : List String
  colorValues : List Rat
  hoverCountry : List String
  colorScale : String
  title : String
  height : Nat
deriving DecidableEq, Repr

/-- `create_choropleth_map(variable="lifeExp", year=1952)` of the source:
`gapminder_df[gapminder_df["year"]==year]` then `px.choropleth` keyed by
`iso_alpha` and colored by `variable` (a Lean keyword, so spelt `var` here). -/
def create_choropleth_map (ds : Dataset) (var : Metric := .lifeExp)
    (year : Int := 1952) : MapFig :=
  let df := ds.filter (fun r => r.year == year)
  { data := df
    locations := df.map Record.iso_alpha
    colorValues := df.map (metricValue var)
    hoverCountry := df.map Record.country
    colorScale := "RdYlBu"
    title := metricName var ++ " Map (" ++ toString year ++ ")"
    height := 600 }

/-- A table cell: the dataset's cells are strings, integers or numbers. -/
inductive Cell where
  | s (v : String)
  | i (v : Int)
  | q (v : Rat)
deriving DecidableEq, Repr

/-- `gapminder_df.columns` restricted to the modelled fields, in the
dataset's native field order. -/
def columns : List String := ["country", "continent", "year", "lifeExp", "pop", "gdpPercap", "iso_alpha"]

/-- `r[col]`: the cell a column name selects in a row. -/
def cellOf (r : Record) : String → Cell
  | "country" => .s r.country
  | "continent" => .s r.continent
  | "year" => .i r.year
  | "lifeExp" => .q r.lifeExp
  | "pop" => .q r.pop
  | "gdpPercap" => .q r.gdpPercap
  | "iso_alpha" => .s r.iso_alpha
  | _ => .s ""

/-- The `go.Table` figure of the Dataset tab: header row and column-major
cells, both left-aligned. -/
structure TableFig where
  header : List String
  cells : List (List Cell)
  align : String
deriving DecidableEq, Repr

/-- The Dataset-tab figure built in `app.layout`:
`header=dict(values=list(gapminder_df.columns), align="left")` and
`cells=dict(values=[gapminder_df[col] for col in gapminder_df.columns], align="left")`. -/
def buildTableView (ds : Dataset) : TableFig :=
  { header := columns
    cells := columns.map (fun col => ds.map (fun r => cellOf r col))
    align := "left" }

/-- First-occurrence deduplication with an accumulator of already-seen
values; `uniqueFirst` below models pandas `Series.unique()`. -/
def uniqueFirstAux {α : Type} [DecidableEq α] (seen : List α) : List α → List α
  | [] => []
  | a :: l => if a ∈ seen then uniqueFirstAux seen l else a :: uniqueFirstAux (a :: seen) l

/-- `Series.unique()`: distinct values in order of first occurrence. -/
def uniqueFirst {α : Type} [DecidableEq α] (l : List α) : List α :=
  uniqueFirstAux [] l

/-- `continents = gapminder_df["continent"].unique()`. -/
def continents (ds : Dataset) : List String :=
  uniqueFirst (ds.map Record.continent)

/-- `years = sorted(gapminder_df["year"].unique())`. -/
def years (ds : Dataset) : List Int :=
  List.insertionSort (· ≤ ·) (uniqueFirst (ds.map Record.year))

/-- A `dcc.Dropdown`: its element id, its fixed option values and its
current value. -/
structure Dropdown (α : Type) where
  id : String
  options : List α
  value : α
  clearable : Bool
deriving DecidableEq, Repr

/-- `continent_dropdown(id_value, default="Asia")`: options are the
dataset's distinct continents. -/
def continent_dropdown (ds : Dataset) (id_value : String)
    (default : String := "Asia") : Dropdown String :=
  { id := id_value, options := continents ds, value := default, clearable := false }

/-- `year_dropdown(id_value, default=1952)`: options are the dataset's
distinct years in ascending order. -/
def year_dropdown (ds : Dataset) (id_value : String)
    (default : Int := 1952) : Dropdown Int :=
  { id := id_value, options := years ds, value := default, clearable := false }

/-- The map tab's variable selector (`id="var_map"`), with its three fixed
options. -/
def metric_dropdown : Dropdown Metric :=
  { id := "var_map", options := [.pop, .gdpPercap, .lifeExp], value := .lifeExp, clearable := false }

/-- The continent selectors `app.layout` instantiates, one per ranking
panel. -/
def continentSelectors (ds : Dataset) : List (Dropdown String) :=
  [continent_dropdown ds "cont_pop", continent_dropdown ds "cont_gdp",
   continent_dropdown ds "cont_life_exp"]

/-- The year selectors `app.layout` instantiates, one per interactive
panel. -/
def yearSelectors (ds : Dataset) : List (Dropdown Int) :=
  [year_dropdown ds "year_pop", year_dropdown ds "year_gdp",
   year_dropdown ds "year_life_exp", year_dropdown ds "year_map"]

/-- The five tabs of the dashboard. -/
inductive Panel where
  | dataset
  | population
  | gdp
  | lifeExpectancy
  | choroplethMap
deriving DecidableEq, Repr

/-- A published chart: one of the three figure shapes. -/
inductive ChartSpec where
  | bar (f : BarFig)
  | map (f : MapFig)
  | table (f : TableFig)
deriving DecidableEq, Repr

/-- The dashboard's state: each panel's current selector values and its
last-published figure.  The Dataset tab's figure is built once in
`app.layout` and owned by no callback. -/
structure DashState where
  contPop : String
  yearPop : Int
  contGdp : String
  yearGdp : Int
  contLife : String
  yearLife : Int
  varMap : Metric
  yearMap : Int
  popFig : BarFig
  gdpFig : BarFig
  lifeFig : BarFig
  mapFig : MapFig
  tableFig : TableFig
deriving DecidableEq, Repr

/-- The state after `app.layout` renders and each callback fires once on
its defaults (`continent="Asia"`, `year=1952`, map variable `lifeExp`). -/
def initState (ds : Dataset) : DashState :=
  { contPop := "Asia", yearPop := 1952
    contGdp := "Asia", yearGdp := 1952
    contLife := "Asia", yearLife := 1952
    varMap := .lifeExp, yearMap := 1952
    popFig := create_population_chart ds
    gdpFig := create_gdp_chart ds
    lifeFig := create_life_exp_chart ds
    mapFig := create_choropleth_map ds
    tableFig := buildTableView ds }

/-- A control-change event: one of the eight dropdowns takes a new value. -/
inductive Event where
  | popContinent (c : String)
  | popYear (y : Int)
  | gdpContinent (c : String)
  | gdpYear (y : Int)
  | lifeContinent (c : String)
  | lifeYear (y : Int)
  | mapVariable (m : Metric)
  | mapYear (y : Int)
deriving DecidableEq, Repr

/-- The panel a control event belongs to (the callback's Output). -/
def eventPanel : Event → Panel
  | .popContinent _ => .population
  | .popYear _ => .population
  | .gdpContinent _ => .gdp
  | .gdpYear _ => .gdp
  | .lifeContinent _ => .lifeExpectancy
  | .lifeYear _ => .lifeExpectancy
  | .mapVariable _ => .choroplethMap
  | .mapYear _ => .choroplethMap

/-- One synchronous update cycle of the reactive binding layer: the
changed control's field is updated and the owning callback recomputes and
republishes that panel's figure from the dataset and the panel's full
current criteria — exactly the four `@callback` handlers of the source. -/
def step (ds : Dataset) (s : DashState) : Event → DashState
  | .popContinent c => { s with contPop := c, popFig := create_population_chart ds c s.yearPop }
  | .popYear y => { s with yearPop := y, popFig := create_population_chart ds s.contPop y }
  | .gdpContinent c => { s with contGdp := c, gdpFig := create_gdp_chart ds c s.yearGdp }
  | .gdpYear y => { s with yearGdp := y, gdpFig := create_gdp_chart ds s.contGdp y }
  | .lifeContinent c => { s with contLife := c, lifeFig := create_life_exp_chart ds c s.yearLife }
  | .lifeYear y => { s with yearLife := y, lifeFig := create_life_exp_chart ds s.contLife y }
  | .mapVariable m => { s with varMap := m, mapFig := create_choropleth_map ds m s.yearMap }
  | .mapYear y => { s with yearMap := y, mapFig := create_choropleth_map ds s.varMap y }

/-- The chart a panel's display surface currently shows. -/
def published (s : DashState) : Panel → ChartSpec
  | .dataset => .table s.tableFig
  | .population => .bar s.popFig
  | .gdp => .bar s.gdpFig
  | .lifeExpectancy => .bar s.lifeFig
  | .choroplethMap => .map s.mapFig

/-- A small concrete dataset in the gapminder shape, used to instantiate
the theorems below at concrete inputs. -/
def sampleDataset : Dataset :=
  [ ⟨"China", "Asia", 1952, 44, 556, 400, "CHN"⟩,
    ⟨"India", "Asia", 1952, 37, 372, 547, "IND"⟩,
    ⟨"Japan", "Asia", 1952, 63, 86, 3217, "JPN"⟩,
    ⟨"Germany", "Europe", 1952, 67, 69, 7144, "DEU"⟩,
    ⟨"China", "Asia", 1957, 50, 637, 576, "CHN"⟩ ]

example : (create_population_chart sampleDataset "Asia" 1952).x = ["China", "India", "Japan"] := by decide

example : continents sampleDataset = ["Asia", "Europe"] := by decide

example : years sampleDataset = [1952, 1957] := by decide

/-! ## Helper lemmas -/

lemma create_bar_chart_data (df : List Record) (m : Metric) (t : String) :
    (create_bar_chart df m t).data = (List.insertionSort (metricGE m) df).take 15 := rfl

lemma mem_filterContinentYear {ds : Dataset} {c : String} {y : Int} {r : Record} :
    r ∈ filterContinentYear ds c y ↔ r ∈ ds ∧ r.continent = c ∧ r.year = y := by
  simp [filterContinentYear, List.mem_filter, and_assoc]

lemma mem_uniqueFirstAux {α : Type} [DecidableEq α] {l : List α} {a : α} :
    ∀ {seen : List α}, a ∈ uniqueFirstAux seen l ↔ a ∈ l ∧ a ∉ seen := by
  induction l with
  | nil => intro seen; simp [uniqueFirstAux]
  | cons b l ih =>
    intro seen
    simp only [uniqueFirstAux]
    by_cases hb : b ∈ seen
    · rw [if_pos hb, ih]
      constructor
      · rintro ⟨ha, hs⟩
        exact ⟨List.mem_cons_of_mem _ ha, hs⟩
      · rintro ⟨ha, hs⟩
        rcases List.mem_cons.mp ha with rfl | ha2
        · exact absurd hb hs
        · exact ⟨ha2, hs⟩
    · rw [if_neg hb]
      constructor
      · intro h
        rcases List.mem_cons.mp h with rfl | h2
        · exact ⟨List.mem_cons_self _ _, hb⟩
        · rcases ih.mp h2 with ⟨ha, hs⟩
          exact ⟨List.mem_cons_of_mem _ ha, fun h3 => hs (List.mem_cons_of_mem _ h3)⟩
      · rintro ⟨ha, hs⟩
        by_cases hab : a = b
        · subst hab
          exact List.mem_cons_self _ _
        · rcases List.mem_cons.mp ha with rfl | ha2
          · exact absurd rfl hab
          · refine List.mem_cons_of_mem _ (ih.mpr ⟨ha2, ?_⟩)
            intro h3
            rcases List.mem_cons.mp h3 with h4 | h4
            · exact hab h4
            · exact hs h4

lemma mem_uniqueFirst {α : Type} [DecidableEq α] {l : List α} {a : α} :
    a ∈ uniqueFirst l ↔ a ∈ l := by
  simp [uniqueFirst, mem_uniqueFirstAux]

lemma nodup_uniqueFirstAux {α : Type} [DecidableEq α] (l : List α) :
    ∀ (seen : List α), (uniqueFirstAux seen l).Nodup := by
  induction l with
  | nil => intro seen; simp [uniqueFirstAux]
  | cons b l ih =>
    intro seen
    simp only [uniqueFirstAux]
    by_cases hb : b ∈ seen
    · rw [if_pos hb]
      exact ih seen
    · rw [if_neg hb]
      refine List.nodup_cons.mpr ⟨?_, ih _⟩
      intro hmem
      exact (mem_uniqueFirstAux.mp hmem).2 (List.mem_cons_self _ _)

lemma nodup_uniqueFirst {α : Type} [DecidableEq α] (l : List α) :
    (uniqueFirst l).Nodup :=
  nodup_uniqueFirstAux l []

lemma mem_continents {ds : Dataset} {c : String} :
    c ∈ continents ds ↔ ∃ r ∈ ds, r.continent = c := by
  simp [continents, mem_uniqueFirst, List.mem_map]

lemma mem_years {ds : Dataset} {y : Int} :
    y ∈ years ds ↔ ∃ r ∈ ds, r.year = y := by
  rw [years, (List.perm_insertionSort _ _).mem_iff, mem_uniqueFirst]
  simp [List.mem_map]

/-! ## Claims -/

/-- C1: for every dataset, continent, year, metric and title, the ranking
pipeline of `create_bar_chart` applied to the continent-and-year filter
(the body shared by the three ranking callbacks) returns at most 15 rows,
every returned row has the requested continent and year, and the rows are
in descending order of the requested metric. -/
theorem c1_rank_at_most_15_matching_sorted (ds : Dataset) (c : String) (y : Int)
    (m : Metric) (t : String) :
    (create_bar_chart (filterContinentYear ds c y) m t).data.length ≤ 15 ∧
    (∀ r ∈ (create_bar_chart (filterContinentYear ds c y) m t).data,
      r.continent = c ∧ r.year = y) ∧
    List.Sorted (metricGE m) (create_bar_chart (filterContinentYear ds c y) m t).data := by
  rw [create_bar_chart_data]
  refine ⟨?_, ?_, ?_⟩
  · exact List.length_take_le 15 _
  · intro r hr
    have h1 : r ∈ List.insertionSort (metricGE m) (filterContinentYear ds c y) :=
      List.take_subset _ _ hr
    have h2 : r ∈ filterContinentYear ds c y :=
      (List.perm_insertionSort _ _).mem_iff.mp h1
    exact ⟨(mem_filterContinentYear.mp h2).2.1, (mem_filterContinentYear.mp h2).2.2⟩
  · exact List.Pairwise.sublist (List.take_sublist _ _) (List.sorted_insertionSort _ _)

/-- C3: a (continent, year) pair matching no dataset row yields the empty
filtered subset, and the ranking chart built from it is a valid zero-bar
figure; both operations are total Lean functions, so no failure is
signalled on any input. -/
theorem c3_empty_filter_zero_bars (ds : Dataset) (c : String) (y : Int)
    (m : Metric) (t : String)
    (h : ∀ r ∈ ds, ¬(r.continent = c ∧ r.year = y)) :
    filterContinentYear ds c y = [] ∧
    (create_bar_chart (filterContinentYear ds c y) m t).data = [] ∧
    (create_bar_chart (filterContinentYear ds c y) m t).x = [] := by
  have hf : filterContinentYear ds c y = [] := by
    refine List.eq_nil_iff_forall_not_mem.mpr fun r hr => ?_
    have h2 := mem_filterContinentYear.mp hr
    exact h r h2.1 ⟨h2.2.1, h2.2.2⟩
  refine ⟨hf, ?_, ?_⟩ <;> rw [hf] <;> rfl

/-- C3 witness: `("Oceania", 1952)` matches no row of the sample dataset
and produces the empty subset and a zero-bar figure. -/
theorem c3_empty_filter_zero_bars_witness :
    filterContinentYear sampleDataset "Oceania" 1952 = [] ∧
    (create_bar_chart (filterContinentYear sampleDataset "Oceania" 1952) Metric.pop "t").data = [] ∧
    (create_bar_chart (filterContinentYear sampleDataset "Oceania" 1952) Metric.pop "t").x = [] :=
  c3_empty_filter_zero_bars sampleDataset "Oceania" 1952 Metric.pop "t" (by decide)

/-- C4 (code bug): `create_bar_chart` accepts a `title` argument but never
uses it — `px.bar` is invoked without a title and `update_layout` sets
none — so the produced figure's title is unset, the figure is independent
of the supplied title, and in particular the contextful title a panel
builder such as `create_population_chart` passes is dropped. -/
theorem c4_title_ignored (df : List Record) (m : Metric) (t : String)
    (ds : Dataset) (c : String) (y : Int) :
    (create_bar_chart df m t).title = none ∧
    create_bar_chart df m t = create_bar_chart df m "" ∧
    (create_population_chart ds c y).title = none :=
  ⟨rfl, rfl, rfl⟩

/-- C5: the choropleth's data series is exactly the rows of the dataset
whose year matches (same order, no ranking, no truncation), each row
contributing its ISO code as location and the requested metric as color
value; an ISO code absent from the year slice contributes no entry at
all. -/
theorem c5_choropleth_year_slice (ds : Dataset) (m : Metric) (y : Int) :
    (∀ r, r ∈ (create_choropleth_map ds m y).data ↔ r ∈ ds ∧ r.year = y) ∧
    (create_choropleth_map ds m y).data.Sublist ds ∧
    (create_choropleth_map ds m y).data.length = ds.countP (fun r => r.year == y) ∧
    (create_choropleth_map ds m y).locations =
      (create_choropleth_map ds m y).data.map Record.iso_alpha ∧
    (create_choropleth_map ds m y).colorValues =
      (create_choropleth_map ds m y).data.map (metricValue m) ∧
    (∀ iso, iso ∉ (create_choropleth_map ds m y).locations ↔
      ∀ r ∈ ds, r.year = y → r.iso_alpha ≠ iso) := by
  refine ⟨?_, ?_, ?_, rfl, rfl, ?_⟩
  · intro r
    simp [create_choropleth_map, List.mem_filter]
  · exact List.filter_sublist _
  · simp [create_choropleth_map, List.countP_eq_length_filter]
  · intro iso
    simp only [create_choropleth_map, List.mem_map, List.mem_filter]
    push_neg
    constructor
    · intro h r hr hy
      exact h r ⟨hr, by simp [hy]⟩
    · rintro h r ⟨hr, hy⟩
      exact h r hr (by simpa using hy)

/-- C6: one control-change event republishes only its own panel's chart:
every other panel's published chart is unchanged by the step. -/
theorem c6_panel_independence (ds : Dataset) (s : DashState) (e : Event)
    (p : Panel) (h : p ≠ eventPanel e) :
    published (step ds s e) p = published s p := by
  cases e <;> cases p <;> first | rfl | exact absurd rfl h

/-- C6 witness: changing the Population panel's continent leaves the GDP
panel's published chart unchanged on the sample dataset. -/
theorem c6_panel_independence_witness :
    published (step sampleDataset (initState sampleDataset) (Event.popContinent "Africa"))
      Panel.gdp = published (initState sampleDataset) Panel.gdp :=
  c6_panel_independence sampleDataset (initState sampleDataset)
    (Event.popContinent "Africa") Panel.gdp (by decide)

/-- C7: the update cycle is deterministic in its inputs: stepping the same
event (hence identical filter criteria) a second time reproduces the state
bit for bit, published figures included. -/
theorem c7_update_idempotent (ds : Dataset) (s : DashState) (e : Event) :
    step ds (step ds s e) e = step ds s e := by
  cases e <;> rfl

/-- C8: the Dataset-tab table is built from the full dataset — its header
is the dataset's columns in native field order and every column holds one
cell per dataset row — it is the table in the initial state, and no
control event ever recomputes or replaces it. -/
theorem c8_table_full_and_static (ds : Dataset) (s : DashState) (e : Event) :
    (buildTableView ds).header = columns ∧
    (buildTableView ds).cells.length = columns.length ∧
    (∀ col ∈ (buildTableView ds).cells, col.length = ds.length) ∧
    (initState ds).tableFig = buildTableView ds ∧
    (step ds s e).tableFig = s.tableFig := by
  refine ⟨rfl, by simp [buildTableView], ?_, rfl, ?_⟩
  · intro col hcol
    simp only [buildTableView, List.mem_map] at hcol
    obtain ⟨c, hc, rfl⟩ := hcol
    simp
  · cases e <;> rfl

/-- C9 (amended): the binding layer performs no validation against the
option set: an event carrying a continent outside the dropdown's options
is processed like any other — the panel's criteria field is updated to the
new value and a freshly computed chart is published to that panel; since
no dataset row carries the unknown continent, the published ranking chart
has zero bars. -/
theorem c9_no_validation_processed_anyway (ds : Dataset) (s : DashState) (c : String)
    (h : c ∉ (continent_dropdown ds "cont_pop").options) :
    (step ds s (Event.popContinent c)).contPop = c ∧
    published (step ds s (Event.popContinent c)) Panel.population =
      ChartSpec.bar (create_population_chart ds c s.yearPop) ∧
    (create_population_chart ds c s.yearPop).data = [] := by
  refine ⟨rfl, rfl, ?_⟩
  have hf : filterContinentYear ds c s.yearPop = [] := by
    refine List.eq_nil_iff_forall_not_mem.mpr fun r hr => ?_
    have h2 := mem_filterContinentYear.mp hr
    exact h (mem_continents.mpr ⟨r, h2.1, h2.2.1⟩)
  show (create_bar_chart (filterContinentYear ds c s.yearPop) Metric.pop _).data = []
  rw [hf]
  rfl

/-- C9 witness: an event carrying the out-of-options continent
`"Atlantis"` is processed, updating the criteria and publishing a zero-bar
chart. -/
theorem c9_no_validation_processed_anyway_witness :
    (step sampleDataset (initState sampleDataset) (Event.popContinent "Atlantis")).contPop = "Atlantis" ∧
    published (step sampleDataset (initState sampleDataset) (Event.popContinent "Atlantis"))
      Panel.population =
      ChartSpec.bar (create_population_chart sampleDataset "Atlantis"
        (initState sampleDataset).yearPop) ∧
    (create_population_chart sampleDataset "Atlantis" (initState sampleDataset).yearPop).data = [] :=
  c9_no_validation_processed_anyway sampleDataset (initState sampleDataset) "Atlantis" (by decide)

/-- C9 counterexample: `"Atlantis"` is outside the continent dropdown's
option set, yet the update cycle does not reject the event: the state
changes (the criteria field takes the invalid value) and a new chart — the
empty one — is published to the Population panel, contradicting the claim
that the criteria stay unchanged and nothing is republished. -/
theorem c9_rejection_counterexample :
    "Atlantis" ∉ (continent_dropdown sampleDataset "cont_pop").options ∧
    step sampleDataset (initState sampleDataset) (Event.popContinent "Atlantis") ≠
      initState sampleDataset ∧
    published (step sampleDataset (initState sampleDataset) (Event.popContinent "Atlantis"))
      Panel.population ≠ published (initState sampleDataset) Panel.population := by
  refine ⟨by decide, by decide, by decide⟩

/-- C10: every continent selector in the layout offers exactly the
dataset's distinct continent values, every year selector offers exactly
the dataset's distinct years in ascending order, and hence every
selectable continent and year occurs in the dataset. -/
theorem c10_options_drawn_from_dataset (ds : Dataset) :
    (∀ d ∈ continentSelectors ds, d.options = continents ds) ∧
    (∀ c, c ∈ continents ds ↔ ∃ r ∈ ds, r.continent = c) ∧
    (continents ds).Nodup ∧
    (∀ d ∈ yearSelectors ds, d.options = years ds) ∧
    (∀ y, y ∈ years ds ↔ ∃ r ∈ ds, r.year = y) ∧
    List.Sorted (· ≤ ·) (years ds) ∧
    (years ds).Nodup := by
  refine ⟨?_, fun c => mem_continents, nodup_uniqueFirst _, ?_, fun y => mem_years, ?_, ?_⟩
  · intro d hd
    simp only [continentSelectors, List.mem_cons, List.not_mem_nil, or_false] at hd
    rcases hd with rfl | rfl | rfl <;> rfl
  · intro d hd
    simp only [yearSelectors, List.mem_cons, List.not_mem_nil, or_false] at hd
    rcases hd with rfl | rfl | rfl | rfl <;> rfl
  · exact List.sorted_insertionSort _ _
  · exact ((List.perm_insertionSort _ _).nodup_iff).mpr (nodup_uniqueFirst _)
